import Mathlib

/-!
Shallow embedding of the `JavaUploaderNotifier` plugin
(`plugins.v2/javauploadernotifier/__init__.py`).

The plugin forwards media-organize completion events to an external HTTP
endpoint with a bounded retry loop and keeps statistics (`stats`) and a
bounded recent-push log (`recent_pushes`) in the host key/value store.

Modelling conventions:
* The host key/value store is explicit state (`Stats`, `List PushRecord`).
* The network is an environment function: each HTTP attempt is indexed and
  the environment says what `requests.post` did (200 response, non-200
  status, timeout, connection error, or other exception).
* Python attribute objects are records; an attribute probed with
  `hasattr`, or an object tested for truthiness before access, becomes an
  `Option` field (`none` = absent / falsy).  Attributes the code reads
  unconditionally (e.g. `mediainfo.title`, `transferinfo.success`, which
  the host schemas always define) are plain fields.
* Wall-clock timestamps (`datetime.now()`) are passed in as opaque strings.
-/

namespace JavaUploaderNotifier

/-- Plugin configuration fields read by `init_plugin` (`_enabled`,
`_api_url`, `_api_token`, `_only_success`, `_retry_times`, `_timeout`,
`_test_mode`, `_notify_immediately`). -/
structure Config where
  enabled : Bool
  api_url : String
  api_token : String
  only_success : Bool
  retry_times : Nat
  timeout : Nat
  test_mode : Bool
  notify_immediately : Bool
deriving Repr, DecidableEq

/-- The persisted `stats` counters `{"total": _, "success": _, "failed": _}`. -/
structure Stats where
  total : Nat
  success : Nat
  failed : Nat
deriving Repr, DecidableEq

/-- `_update_stats(success, failed)` (lines 916-929): read the stored
counters, increment `total`, increment `success` when the `success` flag
is set and `failed` when the `failed` flag is set, write back. -/
def updateStats (s : Stats) (success failed : Bool) : Stats :=
  { total := s.total + 1
    success := if success then s.success + 1 else s.success
    failed := if failed then s.failed + 1 else s.failed }

/-- One entry of the persisted `recent_pushes` list (the dicts built at
lines 799-804 and 811-816). -/
structure PushRecord where
  timestamp : String
  title : String
  target_path : String
  success : Bool
deriving Repr, DecidableEq

/-- The truncation step of `_save_recent_push`: `if len(recent_pushes) >
100: recent_pushes = recent_pushes[-100:]`. -/
def truncate100 (l : List PushRecord) : List PushRecord :=
  if l.length > 100 then l.drop (l.length - 100) else l

/-- `_save_recent_push(push_data)` (lines 931-943): append the record,
then keep only the last 100 entries. -/
def saveRecentPush (l : List PushRecord) (r : PushRecord) : List PushRecord :=
  truncate100 (l ++ [r])

/-- Outcome of a single `requests.post` call inside `_push_to_api`'s
retry loop: a 200 response (with the JSON-parse result of its body),
any other status, a timeout, a connection error, or some other
exception — the last four are all handled identically (lines 890-902). -/
inductive AttemptResult where
  | ok (jsonBody : Option String)
  | badStatus (code : Nat) (text : String)
  | timeout
  | connError (msg : String)
  | exn (msg : String)
deriving Repr, DecidableEq

/-- Whether the attempt came back with HTTP 200 (line 879). -/
def AttemptResult.is200 : AttemptResult → Bool
  | .ok _ => true
  | _ => false

/-- Observable network-side events of `_push_to_api`: an HTTP POST, or a
`time.sleep(secs)` between retries. -/
inductive PushEv where
  | post
  | sleep (secs : Nat)
deriving Repr, DecidableEq

/-- The `while retry_count <= self._retry_times` loop of `_push_to_api`
(lines 859-908), with the environment `env` giving the outcome of the
attempt at each index.  The second argument is the number of loop
iterations still permitted, i.e. `retry_times + 1 - retry_count`; on a
200 response the loop returns success, otherwise `retry_count` is
incremented and, when another iteration is permitted, the loop sleeps 2
seconds and continues.  Returns the event trace and whether delivery
succeeded. -/
def pushLoop (env : Nat → AttemptResult) : Nat → Nat → List PushEv × Bool
  | _, 0 => ([], false)
  | idx, remaining + 1 =>
    if (env idx).is200 then ([.post], true)
    else
      match remaining with
      | 0 => ([.post], false)
      | r + 1 =>
        let rest := pushLoop env (idx + 1) (r + 1)
        (.post :: .sleep 2 :: rest.1, rest.2)

/-- Result of `_push_to_api`: the trace of HTTP posts and sleeps, and
whether the push was delivered (a 200 was received). -/
structure PushResult where
  trace : List PushEv
  delivered : Bool
deriving Repr, DecidableEq

/-- `_push_to_api(data)` (lines 846-914): run the retry loop starting at
`retry_count = 0`; on success call `_update_stats(success=True)`, and
after the loop exhausts all `retry_times + 1` attempts call
`_update_stats(failed=True)`. -/
def pushToApi (retryTimes : Nat) (env : Nat → AttemptResult) (st : Stats) :
    PushResult × Stats :=
  let run := pushLoop env 0 (retryTimes + 1)
  (⟨run.1, run.2⟩,
   if run.2 then updateStats st true false else updateStats st false true)

/-- A media-type enum member; the code only ever reads its `.value`
string (the host enum maps e.g. MOVIE to "电影"). -/
structure MediaType where
  value : String
deriving Repr, DecidableEq

/-- The `meta` object.  Every attribute the code guards with
`hasattr(meta, ...)` is an `Option` field (`none` = attribute absent). -/
structure Meta where
  name : Option String
  year : Option Int
  type : Option MediaType
  begin_season : Option Int
  episode_list : Option (List Int)
deriving Repr, DecidableEq

/-- The `mediainfo` object.  `title`, `tmdb_id`, `imdb_id`, `tvdb_id`
and `douban_id` are read unconditionally once `mediainfo` is truthy, so
they are plain fields (identifier values may themselves be null, hence
`Option`); `year` and `type` are tested for truthiness before use;
`category`, `vote_average`, `overview` and the poster/backdrop accessors
are probed with `hasattr`. -/
structure MediaInfo where
  title : String
  year : Option Int
  type : Option MediaType
  tmdb_id : Option Int
  imdb_id : Option String
  tvdb_id : Option Int
  douban_id : Option String
  category : Option String
  vote_average : Option String
  overview : Option String
  poster_image : Option String
  backdrop_image : Option String
deriving Repr, DecidableEq

/-- A `target_item` / `target_diritem` value: the code tests the item
and then its `.path` for truthiness. -/
structure PathItem where
  path : Option String
deriving Repr, DecidableEq

/-- The `transferinfo` object.  `success` is read unconditionally at the
gate (line 689) and the host schema always defines it, so it is a plain
field; `target_item`, `target_diritem`, `file_list_new`, `total_size`
and `message` are truthiness-tested or `hasattr`-probed. -/
structure TransferInfo where
  target_item : Option PathItem
  target_diritem : Option PathItem
  file_list_new : Option (List String)
  total_size : Option Int
  success : Bool
  message : Option String
deriving Repr, DecidableEq

/-- The target-path derivation repeated at lines 742-746 (and 678-682):
prefer `target_item.path`, else `target_diritem.path`, else `""`. -/
def targetPathOf (ti : TransferInfo) : String :=
  match ti.target_item.bind PathItem.path with
  | some p => p
  | none =>
    match ti.target_diritem.bind PathItem.path with
    | some p => p
    | none => ""

/-- The payload dict built at lines 754-779. -/
structure Payload where
  transferHistoryId : Option Int
  title : String
  year : String
  type : String
  season : Option Int
  episode : Option (List Int)
  seasonEpisode : Option String
  tmdbId : Option Int
  imdbId : Option String
  tvdbId : Option Int
  doubanId : Option String
  targetPath : String
  fileList : List String
  fileSize : Int
  fileCount : Nat
  success : Bool
  message : String
  username : Option String
  timestamp : String
  category : Option String
  voteAverage : Option String
  overview : Option String
  poster : Option String
  backdrop : Option String
deriving Repr, DecidableEq

/-- The `file_list` derivation at lines 749-751: the stringified
`file_list_new` when the attribute exists and the list is non-empty
(Python truthiness), else `[]`. -/
def fileListOf (ti : TransferInfo) : List String :=
  match ti.file_list_new with
  | some l => if l.isEmpty then [] else l
  | none => []

/-- Payload construction (lines 753-779).  `thId` is the result of the
`_get_transfer_history_id` lookup (whose own failure is swallowed and
yields `None`); `nowIso` is `datetime.now().isoformat()`. -/
def buildPayload (meta : Option Meta) (mediainfo : Option MediaInfo)
    (ti : TransferInfo) (seasonEpisode : Option String)
    (username : Option String) (thId : Option Int) (nowIso : String) : Payload :=
  { transferHistoryId := thId
    title :=
      match mediainfo with
      | some info => info.title
      | none =>
        match meta with
        | some m => match m.name with | some n => n | none => ""
        | none => ""
    year :=
      match mediainfo with
      | some info =>
        match info.year with
        | some y =>
          if y ≠ 0 then toString y
          else match meta with
               | some m => match m.year with | some my => toString my | none => ""
               | none => ""
        | none =>
          match meta with
          | some m => match m.year with | some my => toString my | none => ""
          | none => ""
      | none =>
        match meta with
        | some m => match m.year with | some my => toString my | none => ""
        | none => ""
    type :=
      match mediainfo with
      | some info =>
        match info.type with
        | some t => t.value
        | none =>
          match meta with
          | some m => match m.type with | some t => t.value | none => "未知"
          | none => "未知"
      | none =>
        match meta with
        | some m => match m.type with | some t => t.value | none => "未知"
        | none => "未知"
    season := match meta with | some m => m.begin_season | none => none
    episode := match meta with | some m => m.episode_list | none => none
    seasonEpisode := seasonEpisode
    tmdbId := match mediainfo with | some info => info.tmdb_id | none => none
    imdbId := match mediainfo with | some info => info.imdb_id | none => none
    tvdbId := match mediainfo with | some info => info.tvdb_id | none => none
    doubanId := match mediainfo with | some info => info.douban_id | none => none
    targetPath := targetPathOf ti
    fileList := fileListOf ti
    fileSize := match ti.total_size with | some n => n | none => 0
    fileCount := (fileListOf ti).length
    success := ti.success
    message := match ti.message with | some m => m | none => ""
    username := username
    timestamp := nowIso
    category := match mediainfo with | some info => info.category | none => none
    voteAverage := match mediainfo with | some info => info.vote_average | none => none
    overview := match mediainfo with | some info => info.overview | none => none
    poster := match mediainfo with | some info => info.poster_image | none => none
    backdrop := match mediainfo with | some info => info.backdrop_image | none => none }

/-- The two persisted keys the plugin mutates: `stats` and
`recent_pushes`. -/
structure PluginData where
  stats : Stats
  pushes : List PushRecord
deriving Repr, DecidableEq

/-- Environment of one `_process_transfer_push` run: the
`_get_transfer_history_id` lookup result (its own exceptions are caught
inside and yield `None`), whether building the payload dict raises an
unexpected exception (lines 754-779, e.g. an attribute access failing),
whether an unexpected exception escapes `_push_to_api` before its stats
update (only possible at the `import time`/`time.sleep`/logging calls —
every point after a `_update_stats` call inside `_push_to_api` is
exception-free), the per-attempt HTTP outcomes, and the two wall-clock
strings (`isoformat` for the payload, `strftime` for the record). -/
structure DeliverEnv where
  thLookup : Option Int
  buildRaises : Bool
  pushRaises : Bool
  http : Nat → AttemptResult
  nowIso : String
  nowFmt : String

/-- Result of `_process_transfer_push`: the payload handed to
`_push_to_api` (`none` when the push routine was never invoked) and the
updated persisted data. -/
structure ProcResult where
  invoked : Option Payload
  data : PluginData
deriving Repr, DecidableEq

/-- `_process_transfer_push` (lines 728-816): compute the target path
and payload, call `_push_to_api` (which itself updates the stats), then
record a recent push with `success=True`; any exception instead updates
the stats with `failed=True` and records a `success=False` entry whose
title is `mediainfo.title` if mediainfo is set else `"N/A"`. -/
def processTransferPush (cfg : Config) (meta : Option Meta)
    (mediainfo : Option MediaInfo) (ti : TransferInfo)
    (seasonEpisode : Option String) (username : Option String)
    (env : DeliverEnv) (st : PluginData) : ProcResult :=
  let tp := targetPathOf ti
  let exnTitle := match mediainfo with | some info => info.title | none => "N/A"
  if env.buildRaises then
    { invoked := none
      data :=
        { stats := updateStats st.stats false true
          pushes := saveRecentPush st.pushes
            { timestamp := env.nowFmt, title := exnTitle
              target_path := tp, success := false } } }
  else
    let payload := buildPayload meta mediainfo ti seasonEpisode username
      env.thLookup env.nowIso
    if env.pushRaises then
      { invoked := some payload
        data :=
          { stats := updateStats st.stats false true
            pushes := saveRecentPush st.pushes
              { timestamp := env.nowFmt, title := exnTitle
                target_path := tp, success := false } } }
    else
      let pr := pushToApi cfg.retry_times env.http st.stats
      { invoked := some payload
        data :=
          { stats := pr.2
            pushes := saveRecentPush st.pushes
              { timestamp := env.nowFmt, title := payload.title
                target_path := tp, success := true } } }

/-- The host `NotificationType` enum (only the members this plugin
mentions). -/
inductive NotificationType where
  | Organize
  | SiteMessage
  | Download
  | Manual
deriving Repr, DecidableEq

/-- The `event.event_data` dict as read by `on_notice_message`
(`type`, `meta`, `mediainfo`, `transferinfo`, `season_episode`,
`username`). -/
structure EventData where
  type : Option NotificationType
  meta : Option Meta
  mediainfo : Option MediaInfo
  transferinfo : Option TransferInfo
  season_episode : Option String
  username : Option String

/-- Result of one `on_notice_message` run: the payload pushed (`none`
when delivery was never attempted) and the updated persisted data. -/
structure HandlerResult where
  invoked : Option Payload
  data : PluginData
deriving Repr, DecidableEq

/-- `on_notice_message(event)` (lines 628-698): the guard chain —
disabled plugin, unset URL/token (empty string is falsy), absent event
data, a message type that is missing or not `Organize`, an absent
`transferinfo`, and the `only_success`/transfer-failure check — each
returns without side effects; otherwise `_process_transfer_push` runs. -/
def onNoticeMessage (cfg : Config) (env : DeliverEnv)
    (ev : Option EventData) (st : PluginData) : HandlerResult :=
  if cfg.enabled = false then ⟨none, st⟩
  else if cfg.api_url = "" ∨ cfg.api_token = "" then ⟨none, st⟩
  else
    match ev with
    | none => ⟨none, st⟩
    | some d =>
      match d.type with
      | none => ⟨none, st⟩
      | some t =>
        if t ≠ NotificationType.Organize then ⟨none, st⟩
        else
          match d.transferinfo with
          | none => ⟨none, st⟩
          | some ti =>
            if cfg.only_success ∧ ti.success = false then ⟨none, st⟩
            else
              let r := processTransferPush cfg d.meta d.mediainfo ti
                d.season_episode d.username env st
              ⟨r.invoked, r.data⟩

/-- The request `test_connection` sends: URL, the two headers, and the
`{"test": True, "timestamp": ...}` body. -/
structure TcRequest where
  url : String
  contentType : String
  apiToken : String
  bodyTest : Bool
  bodyTimestamp : String
deriving Repr, DecidableEq

/-- What the network did for the `test_connection` request: a response
with a status, the JSON-parse result of its body (`none` when
`response.json()` raises), and its text; or an exception from
`requests.post` itself. -/
inductive HttpResult where
  | resp (status : Nat) (jsonBody : Option String) (text : String)
  | exn (msg : String)
deriving Repr, DecidableEq

/-- The structured result `test_connection` returns. -/
structure TcResult where
  success : Bool
  message : String
deriving Repr, DecidableEq

/-- The request `test_connection` builds (lines 116-132): the
`/test`-suffixed URL, the JSON content type, the `X-API-Token` header,
and the `{"test": True, "timestamp": now}` body. -/
def tcRequest (cfg : Config) (now : String) : TcRequest :=
  { url := cfg.api_url ++ "/test", contentType := "application/json"
    apiToken := cfg.api_token, bodyTest := true, bodyTimestamp := now }

/-- `test_connection` (lines 104-151): refuse when URL or token is
unset; otherwise POST `{test: True, timestamp}` to `api_url ++ "/test"`.
On HTTP 200 the success dict includes `response.json()` — evaluated
inside the `try`, so a 200 body that fails JSON parsing lands in the
`except` branch and yields a failure result; any non-200 status or
request exception also yields a failure.  Returns the result together
with the request sent (`none` when no request was made). -/
def testConnection (cfg : Config) (now : String)
    (net : TcRequest → HttpResult) : TcResult × Option TcRequest :=
  if cfg.api_url = "" ∨ cfg.api_token = "" then
    (⟨false, "API地址或Token未配置"⟩, none)
  else
    match net (tcRequest cfg now) with
    | .exn m => (⟨false, "连接异常: " ++ m⟩, some (tcRequest cfg now))
    | .resp status jsonBody _text =>
      if status = 200 then
        match jsonBody with
        | some _ => (⟨true, "连接成功"⟩, some (tcRequest cfg now))
        | none => (⟨false, "连接异常: response body is not valid JSON"⟩,
            some (tcRequest cfg now))
      else
        (⟨false, "连接失败: HTTP " ++ toString status⟩,
          some (tcRequest cfg now))

/-! ## Helper lemmas -/

/-- When every attempt fails, the loop runs all its permitted
iterations: the trace is `n` post/sleep-2 pairs followed by one final
post, and delivery fails. -/
theorem pushLoop_fail_trace (env : Nat → AttemptResult)
    (hfail : ∀ i, (env i).is200 = false) :
    ∀ n idx, pushLoop env idx (n + 1) =
      (List.flatten (List.replicate n [PushEv.post, PushEv.sleep 2]) ++ [PushEv.post],
       false)
  | 0, idx => by simp [pushLoop, hfail idx]
  | n + 1, idx => by
    have ih := pushLoop_fail_trace env hfail n (idx + 1)
    simp [pushLoop, hfail idx, ih, List.replicate_succ]

/-- Number of posts in the all-fail trace body. -/
theorem flatten_rep_count_post (n : Nat) :
    (List.flatten (List.replicate n [PushEv.post, PushEv.sleep 2])).count PushEv.post
      = n := by
  induction n with
  | zero => simp
  | succ n ih => simp [List.replicate_succ, List.count_cons, ih]

/-- Number of 2-second sleeps in the all-fail trace body. -/
theorem flatten_rep_count_sleep (n : Nat) :
    (List.flatten (List.replicate n [PushEv.post, PushEv.sleep 2])).count
      (PushEv.sleep 2) = n := by
  induction n with
  | zero => simp
  | succ n ih => simp [List.replicate_succ, List.count_cons, ih]

/-- `truncate100` is a `drop` (Nat subtraction truncates at 0). -/
theorem truncate100_eq_drop (l : List PushRecord) :
    truncate100 l = l.drop (l.length - 100) := by
  unfold truncate100
  split
  · rfl
  · next h =>
    have hz : l.length - 100 = 0 := by omega
    rw [hz, List.drop_zero]

/-- Truncating before an append gives the same result as truncating
after it: the elements a pre-truncation discards would be discarded by
the post-truncation anyway. -/
theorem saveRecentPush_truncate (l : List PushRecord) (r : PushRecord) :
    saveRecentPush (truncate100 l) r = truncate100 (l ++ [r]) := by
  unfold saveRecentPush
  rcases le_or_lt l.length 100 with h | h
  · have ht : truncate100 l = l := by
      unfold truncate100; split <;> first | omega | rfl
    rw [ht]
  · have hdl : (truncate100 l).length = 100 := by
      rw [truncate100_eq_drop, List.length_drop]; omega
    rw [truncate100_eq_drop (truncate100 l ++ [r]),
      truncate100_eq_drop (l ++ [r]), List.length_append, List.length_append,
      hdl]
    simp only [List.length_singleton]
    have h1 : 100 + 1 - 100 = 1 := rfl
    rw [h1,
      List.drop_append_of_le_length (by rw [hdl]; norm_num),
      List.drop_append_of_le_length (by omega),
      truncate100_eq_drop l, List.drop_drop]
    congr 2
    omega

/-- Folding `_save_recent_push` over a record sequence, starting from a
(truncated) prefix, equals truncating the full concatenation. -/
theorem foldl_saveRecentPush (records : List PushRecord) :
    ∀ pref : List PushRecord,
      List.foldl saveRecentPush (truncate100 pref) records =
        truncate100 (pref ++ records) := by
  induction records with
  | nil => intro pref; simp
  | cons r rs ih =>
    intro pref
    rw [List.foldl_cons, saveRecentPush_truncate, ih (pref ++ [r])]
    simp

/-! ## Claims -/

/-- C1: with `retry_times = R` and a payload whose delivery fails on
every HTTP attempt (non-200 status, timeout, or connection error each
time), `_push_to_api` performs exactly `R + 1` HTTP POST attempts,
sleeps a fixed 2 seconds between consecutive attempts and never after
the last one (the trace is exactly `R` post-then-sleep-2 pairs followed
by a final post), and then records exactly one failure in the stats
(`failed` and `total` each grow by one, `success` is unchanged). -/
theorem javauploader_C1_retry_exhaustion (R : Nat) (env : Nat → AttemptResult)
    (st : Stats) (hfail : ∀ i, (env i).is200 = false) :
    (pushToApi R env st).1.trace =
      List.flatten (List.replicate R [PushEv.post, PushEv.sleep 2]) ++ [PushEv.post] ∧
    (pushToApi R env st).1.trace.count PushEv.post = R + 1 ∧
    (pushToApi R env st).1.trace.count (PushEv.sleep 2) = R ∧
    (pushToApi R env st).2 = updateStats st false true ∧
    (pushToApi R env st).2.failed = st.failed + 1 ∧
    (pushToApi R env st).2.success = st.success ∧
    (pushToApi R env st).2.total = st.total + 1 := by
  have hrun := pushLoop_fail_trace env hfail R 0
  refine ⟨?_, ?_, ?_, ?_, ?_, ?_, ?_⟩ <;>
    simp [pushToApi, hrun, updateStats, List.count_append,
      flatten_rep_count_post, flatten_rep_count_sleep, List.count_cons]

/-- C1 witness: `retry_times = 2` with a permanently timing-out
endpoint makes exactly 3 POST attempts. -/
theorem javauploader_C1_retry_exhaustion_witness :
    (∀ i, ((fun _ : Nat => AttemptResult.timeout) i).is200 = false) ∧
    (pushToApi 2 (fun _ : Nat => AttemptResult.timeout) ⟨5, 3, 2⟩).1.trace.count
      PushEv.post = 3 ∧
    (pushToApi 2 (fun _ : Nat => AttemptResult.timeout) ⟨5, 3, 2⟩).2.failed = 3 :=
  ⟨fun _ => rfl,
   (javauploader_C1_retry_exhaustion 2 (fun _ : Nat => AttemptResult.timeout)
      ⟨5, 3, 2⟩ (fun _ => rfl)).2.1,
   (javauploader_C1_retry_exhaustion 2 (fun _ : Nat => AttemptResult.timeout)
      ⟨5, 3, 2⟩ (fun _ => rfl)).2.2.2.2.1⟩

/-- C2: every `_process_transfer_push` run (an event that passed all
Event Gate filters) updates the stats exactly once: `total` grows by
exactly 1 and exactly one of `success`/`failed` grows by exactly 1 —
whatever the HTTP outcomes and even when payload construction or the
push routine raises an unexpected exception. -/
theorem javauploader_C2_stats_once (cfg : Config) (meta : Option Meta)
    (mediainfo : Option MediaInfo) (ti : TransferInfo)
    (se user : Option String) (env : DeliverEnv) (st : PluginData) :
    (processTransferPush cfg meta mediainfo ti se user env st).data.stats.total
      = st.stats.total + 1 ∧
    (((processTransferPush cfg meta mediainfo ti se user env st).data.stats.success
        = st.stats.success + 1 ∧
      (processTransferPush cfg meta mediainfo ti se user env st).data.stats.failed
        = st.stats.failed) ∨
     ((processTransferPush cfg meta mediainfo ti se user env st).data.stats.success
        = st.stats.success ∧
      (processTransferPush cfg meta mediainfo ti se user env st).data.stats.failed
        = st.stats.failed + 1)) := by
  unfold processTransferPush pushToApi
  cases hb : env.buildRaises
  · cases hp : env.pushRaises
    · cases hr : (pushLoop env.http 0 (cfg.retry_times + 1)).2
      · exact ⟨by simp [hb, hp, hr, updateStats],
          Or.inr ⟨by simp [hb, hp, hr, updateStats],
                  by simp [hb, hp, hr, updateStats]⟩⟩
      · exact ⟨by simp [hb, hp, hr, updateStats],
          Or.inl ⟨by simp [hb, hp, hr, updateStats],
                  by simp [hb, hp, hr, updateStats]⟩⟩
    · exact ⟨by simp [hb, hp, updateStats],
        Or.inr ⟨by simp [hb, hp, updateStats], by simp [hb, hp, updateStats]⟩⟩
  · exact ⟨by simp [hb, updateStats],
      Or.inr ⟨by simp [hb, updateStats], by simp [hb, updateStats]⟩⟩

/-- C3 counterexample: calling `_update_stats` with both flags left at
their `False` defaults increments `total` only, so from the initial
state `{total: 0, success: 0, failed: 0}` the equation
`total == success + failed` is broken. -/
theorem javauploader_C3_counterexample :
    ¬ ((updateStats ⟨0, 0, 0⟩ false false).total =
        (updateStats ⟨0, 0, 0⟩ false false).success +
        (updateStats ⟨0, 0, 0⟩ false false).failed) := by decide

/-- C3 amended: every invocation of `_update_stats` with exactly one of
the `success`/`failed` flags set — the only call patterns the plugin
uses (`_update_stats(success=True)` and `_update_stats(failed=True)`) —
preserves `total == success + failed`. -/
theorem javauploader_C3_invariant (s : Stats) (b : Bool)
    (h : s.total = s.success + s.failed) :
    (updateStats s b (!b)).total =
      (updateStats s b (!b)).success + (updateStats s b (!b)).failed := by
  cases b <;> simp [updateStats] <;> omega

/-- C3 witness: the invariant step at the initial state for the
`success=True` call pattern. -/
theorem javauploader_C3_invariant_witness :
    (0 : Nat) = 0 + 0 ∧
    (updateStats ⟨0, 0, 0⟩ true (!true)).total =
      (updateStats ⟨0, 0, 0⟩ true (!true)).success +
      (updateStats ⟨0, 0, 0⟩ true (!true)).failed :=
  ⟨rfl, javauploader_C3_invariant ⟨0, 0, 0⟩ true rfl⟩

/-- C4: appending a sequence of records through `_save_recent_push`
(starting from an empty log) stores exactly the last `min(N, 100)`
records in insertion order — i.e. the input with its oldest
`N - 100` entries dropped — so the log never exceeds 100 entries (and
for 105 inserted records exactly the oldest 5 are evicted). -/
theorem javauploader_C4_recent_log (records : List PushRecord) :
    List.foldl saveRecentPush [] records =
      records.drop (records.length - 100) ∧
    (List.foldl saveRecentPush [] records).length ≤ 100 := by
  have h0 : truncate100 ([] : List PushRecord) = [] := rfl
  have h := foldl_saveRecentPush records []
  rw [h0, List.nil_append] at h
  refine ⟨by rw [h, truncate100_eq_drop], ?_⟩
  rw [h, truncate100_eq_drop, List.length_drop]
  omega

/-- C5: whenever the plugin is disabled, or the endpoint URL or token is
unset, or the event payload is absent, or the notification-type tag is
missing or not `Organize`, `on_notice_message` returns without invoking
the delivery path: no payload is pushed and the persisted data (stats
and recent-push log) is unchanged. -/
theorem javauploader_C5_gate_skip (cfg : Config) (env : DeliverEnv)
    (ev : Option EventData) (st : PluginData)
    (h : cfg.enabled = false ∨ cfg.api_url = "" ∨ cfg.api_token = "" ∨
      ev = none ∨
      (∃ d, ev = some d ∧ d.type ≠ some NotificationType.Organize)) :
    onNoticeMessage cfg env ev st = ⟨none, st⟩ := by
  unfold onNoticeMessage
  rcases h with h | h | h | h | ⟨d, hd, ht⟩
  · simp [h]
  · cases hen : cfg.enabled <;> simp [hen, h]
  · cases hen : cfg.enabled <;> simp [hen, h]
  · subst h
    cases hen : cfg.enabled <;> simp [hen]
  · subst hd
    cases hty : d.type with
    | none => cases hen : cfg.enabled <;> simp [hen, hty]
    | some t =>
      have hne : t ≠ NotificationType.Organize := by
        intro hh
        exact ht (by rw [hty, hh])
      cases hen : cfg.enabled <;> simp [hen, hty, hne]

/-- C5 witness: a disabled plugin skips the event untouched. -/
theorem javauploader_C5_gate_skip_witness :
    onNoticeMessage ⟨false, "http://s", "tok", true, 3, 10, false, false⟩
      ⟨none, false, false, fun _ => AttemptResult.timeout, "I", "F"⟩
      none ⟨⟨0, 0, 0⟩, []⟩ = ⟨none, ⟨⟨0, 0, 0⟩, []⟩⟩ :=
  javauploader_C5_gate_skip _ _ _ _ (Or.inl rfl)

/-- C6: an Organize event (passing the earlier gates) whose transfer
result indicates failure is skipped — no delivery, data unchanged —
when `only_success` is set, while the same event proceeds to delivery
(the push routine is invoked with a payload) when `only_success` is
unset. -/
theorem javauploader_C6_only_success_gate (cfg : Config) (env : DeliverEnv)
    (d : EventData) (ti : TransferInfo) (st : PluginData)
    (hen : cfg.enabled = true) (hurl : cfg.api_url ≠ "")
    (htok : cfg.api_token ≠ "")
    (hty : d.type = some NotificationType.Organize)
    (hti : d.transferinfo = some ti) (hsucc : ti.success = false)
    (hb : env.buildRaises = false) :
    onNoticeMessage { cfg with only_success := true } env (some d) st
      = ⟨none, st⟩ ∧
    ((onNoticeMessage { cfg with only_success := false } env (some d) st).invoked).isSome
      = true := by
  constructor
  · unfold onNoticeMessage
    simp [hen, hurl, htok, hty, hti, hsucc]
  · unfold onNoticeMessage processTransferPush
    simp [hen, hurl, htok, hty, hti, hsucc, hb]
    cases hp : env.pushRaises <;> simp [hp]

/-- C6 witness: a concrete failed-transfer Organize event is skipped
with `only_success=true` and delivered with `only_success=false`. -/
theorem javauploader_C6_only_success_gate_witness :
    onNoticeMessage
        { (⟨true, "http://s", "tok", true, 3, 10, false, false⟩ : Config) with
            only_success := true }
        ⟨none, false, false, fun _ => AttemptResult.timeout, "I", "F"⟩
        (some ⟨some NotificationType.Organize, none, none,
          some ⟨none, none, none, none, false, none⟩, none, none⟩)
        ⟨⟨0, 0, 0⟩, []⟩ = ⟨none, ⟨⟨0, 0, 0⟩, []⟩⟩ ∧
    ((onNoticeMessage
        { (⟨true, "http://s", "tok", true, 3, 10, false, false⟩ : Config) with
            only_success := false }
        ⟨none, false, false, fun _ => AttemptResult.timeout, "I", "F"⟩
        (some ⟨some NotificationType.Organize, none, none,
          some ⟨none, none, none, none, false, none⟩, none, none⟩)
        ⟨⟨0, 0, 0⟩, []⟩).invoked).isSome = true :=
  javauploader_C6_only_success_gate _ _ _ _ _ rfl (by decide) (by decide)
    rfl rfl rfl rfl

/-- C7 counterexample: with both `mediainfo.type` and `meta.type`
absent, the payload's `type` field is the literal `"未知"`, not the
literal `"unknown"` the claim states. -/
theorem javauploader_C7_counterexample :
    (buildPayload none none ⟨none, none, none, none, true, none⟩
        none none none "t").type = "未知" ∧
    (buildPayload none none ⟨none, none, none, none, true, none⟩
        none none none "t").type ≠ "unknown" := by
  constructor
  · rfl
  · decide

/-- C7 amended: the payload's `type` is `mediainfo.type.value` when
mediainfo and its type are present, else `meta.type.value` when meta and
its type attribute are present, else the literal `"未知"` (the Chinese
word for "unknown") — not the English literal `"unknown"`. -/
theorem javauploader_C7_type_field (meta : Option Meta)
    (mediainfo : Option MediaInfo) (ti : TransferInfo)
    (se user : Option String) (thId : Option Int) (now : String) :
    (buildPayload meta mediainfo ti se user thId now).type =
      (((mediainfo.bind MediaInfo.type).or (meta.bind Meta.type)).map
          MediaType.value).getD "未知" := by
  cases mediainfo with
  | none =>
    cases meta with
    | none => rfl
    | some m => cases hmt : m.type <;> simp [buildPayload, hmt]
  | some info =>
    cases hit : info.type with
    | some t => simp [buildPayload, hit]
    | none =>
      cases meta with
      | none => simp [buildPayload, hit]
      | some m => cases hmt : m.type <;> simp [buildPayload, hit, hmt]

/-- C8: the payload's `title` is `mediainfo.title` when mediainfo is
present, else `meta.name` when that attribute is present, else the
empty string; in particular with mediainfo absent and meta carrying
`name="Show X"`, `year=2024`, the payload has `title = "Show X"` and
`year = "2024"` (the year stringified). -/
theorem javauploader_C8_title_year (meta : Option Meta)
    (mediainfo : Option MediaInfo) (ti : TransferInfo)
    (se user : Option String) (thId : Option Int) (now : String) :
    (buildPayload meta mediainfo ti se user thId now).title =
      ((mediainfo.map MediaInfo.title).or (meta.bind Meta.name)).getD "" ∧
    (buildPayload (some ⟨some "Show X", some 2024, none, none, none⟩) none
        ⟨none, none, none, none, true, none⟩ none none none "T").title
      = "Show X" ∧
    (buildPayload (some ⟨some "Show X", some 2024, none, none, none⟩) none
        ⟨none, none, none, none, true, none⟩ none none none "T").year
      = "2024" := by
  refine ⟨?_, rfl, by decide⟩
  cases mediainfo with
  | some info => simp [buildPayload]
  | none =>
    cases meta with
    | none => rfl
    | some m => cases hn : m.name <;> simp [buildPayload, hn]

/-- C9 counterexample: a server that answers HTTP 200 with a body that
is not valid JSON makes `test_connection` return a failure result —
`response.json()` is evaluated inside the `try` of the success branch —
so "success iff status 200, for every response body" is false. -/
theorem javauploader_C9_counterexample :
    (testConnection ⟨true, "http://s", "tok", true, 3, 10, false, false⟩ "T"
        (fun _ : TcRequest => HttpResult.resp 200 none "not-json")).1.success
      = false := by decide

/-- C9 amended: with URL and token configured, `test_connection` sends
exactly one POST to `{api_url}/test` with the JSON/API-token headers
and body `{test: true, timestamp}`, and returns a success result iff
the response has status 200 *and* its body parses as JSON (any non-200
status, request exception, or 200 with an unparsable body yields a
failure result). -/
theorem javauploader_C9_probe (cfg : Config) (now : String)
    (net : TcRequest → HttpResult)
    (hu : cfg.api_url ≠ "") (ht : cfg.api_token ≠ "") :
    tcRequest cfg now =
      { url := cfg.api_url ++ "/test", contentType := "application/json"
        apiToken := cfg.api_token, bodyTest := true
        bodyTimestamp := now } ∧
    (testConnection cfg now net).2 = some (tcRequest cfg now) ∧
    ((testConnection cfg now net).1.success = true ↔
      ∃ body text,
        net (tcRequest cfg now) = HttpResult.resp 200 (some body) text) := by
  refine ⟨rfl, ?_, ?_⟩ <;>
    unfold testConnection <;>
    rw [if_neg (by simp [hu, ht])]
  · cases hn : net (tcRequest cfg now) with
    | exn m => rfl
    | resp status jsonBody text =>
      by_cases hs : status = 200
      · subst hs; cases jsonBody <;> rfl
      · simp [hs]
  · cases hn : net (tcRequest cfg now) with
    | exn m =>
      constructor
      · intro hh; simp at hh
      · rintro ⟨b, t, hbt⟩; simp at hbt
    | resp status jsonBody text =>
      by_cases hs : status = 200
      · subst hs
        cases jsonBody with
        | some b =>
          constructor
          · intro _; exact ⟨b, text, rfl⟩
          · intro _; rfl
        | none =>
          constructor
          · intro hh; simp at hh
          · rintro ⟨b, t, hbt⟩; simp at hbt
      · constructor
        · intro hh; simp [hs] at hh
        · rintro ⟨b, t, hbt⟩
          have : status = 200 := by
            injection hbt
          exact absurd this hs

/-- C9 witness: a configured probe against a 200-with-JSON server
succeeds. -/
theorem javauploader_C9_probe_witness :
    (testConnection ⟨true, "http://s", "tok", true, 3, 10, false, false⟩ "T"
        (fun _ : TcRequest => HttpResult.resp 200 (some "ok") "raw")).1.success
      = true := by
  have h := javauploader_C9_probe
    ⟨true, "http://s", "tok", true, 3, 10, false, false⟩ "T"
    (fun _ : TcRequest => HttpResult.resp 200 (some "ok") "raw")
    (by decide) (by decide)
  exact h.2.2.mpr ⟨"ok", "raw", rfl⟩

/-- C10: when payload construction and the push routine both return
without raising, the recent-push record appended by
`_process_transfer_push` has `success = true` — even when every HTTP
attempt failed and the outcome folded into the stats is a failure — so
the record's flag reflects exception-free completion, not the delivery
outcome. -/
theorem javauploader_C10_record_flag (cfg : Config) (meta : Option Meta)
    (mediainfo : Option MediaInfo) (ti : TransferInfo)
    (se user : Option String) (env : DeliverEnv) (st : PluginData)
    (hb : env.buildRaises = false) (hp : env.pushRaises = false) :
    (processTransferPush cfg meta mediainfo ti se user env st).data.pushes =
      saveRecentPush st.pushes
        { timestamp := env.nowFmt
          title := (buildPayload meta mediainfo ti se user env.thLookup
            env.nowIso).title
          target_path := targetPathOf ti
          success := true } ∧
    ((∀ i, (env.http i).is200 = false) →
      (processTransferPush cfg meta mediainfo ti se user env st).data.stats.failed
        = st.stats.failed + 1) := by
  constructor
  · simp [processTransferPush, hb, hp]
  · intro hfail
    have hrun := pushLoop_fail_trace env.http hfail cfg.retry_times 0
    simp [processTransferPush, hb, hp, pushToApi, hrun, updateStats]

/-- C10 witness: an all-500 endpoint still yields a `success = true`
recent-push record while the stats record a failure. -/
theorem javauploader_C10_record_flag_witness :
    (processTransferPush ⟨true, "u", "t", true, 1, 10, false, false⟩ none none
        ⟨none, none, none, none, true, none⟩ none none
        ⟨none, false, false, fun _ => AttemptResult.badStatus 500 "e", "I", "F"⟩
        ⟨⟨0, 0, 0⟩, []⟩).data.stats.failed = 0 + 1 ∧
    (processTransferPush ⟨true, "u", "t", true, 1, 10, false, false⟩ none none
        ⟨none, none, none, none, true, none⟩ none none
        ⟨none, false, false, fun _ => AttemptResult.badStatus 500 "e", "I", "F"⟩
        ⟨⟨0, 0, 0⟩, []⟩).data.pushes =
      saveRecentPush []
        { timestamp := "F"
          title := (buildPayload none none ⟨none, none, none, none, true, none⟩
            none none none "I").title
          target_path := targetPathOf ⟨none, none, none, none, true, none⟩
          success := true } := by
  have h := javauploader_C10_record_flag
    ⟨true, "u", "t", true, 1, 10, false, false⟩ none none
    ⟨none, none, none, none, true, none⟩ none none
    ⟨none, false, false, fun _ => AttemptResult.badStatus 500 "e", "I", "F"⟩
    ⟨⟨0, 0, 0⟩, []⟩ rfl rfl
  exact ⟨h.2 (fun _ => rfl), h.1⟩

end JavaUploaderNotifier
